import Mathlib

set_option maxHeartbeats 1000000

unseal Rat.mul Rat.inv Rat.add Rat.sub

/-!
Shallow embedding of the NoteColors trainer (src/main.py): the note registry,
the colorsys-based note→color mapping, and the trainer session state machine
(challenge issuing, guess evaluation, progression/unlock).  Machine floats are
modelled as exact rationals.
-/

/-- A pitch-class registry entry: display name, base RGB color, optional base frequency. -/
structure NoteDef where
  name : String
  base_rgb : ℚ × ℚ × ℚ
  frequency : Option ℚ
deriving DecidableEq

/-- The NOTES registry of src/main.py, keyed by pitch-class letter. -/
def NOTES : Char → Option NoteDef
  | 'o' => some ⟨"F#/Gb (Rose)", (1, 2/5, 7/10), none⟩
  | 'p' => some ⟨"G (Red)", (1, 0, 0), none⟩
  | 'q' => some ⟨"G#/Ab (Vermillion)", (9/10, 1/4, 21/100), none⟩
  | 'r' => some ⟨"A (Orange)", (1, 13/20, 0), some 440⟩
  | 's' => some ⟨"A#/Bb (Goldenrod)", (171/200, 647/1000, 1/8), some (46616/100)⟩
  | 't' => some ⟨"B/Cb (Yellow)", (1, 1, 0), some (49388/100)⟩
  | 'i' => some ⟨"B#/C (Chartreuse)", (1/2, 1, 0), some (26163/100)⟩
  | 'j' => some ⟨"C#/Db (Green)", (0, 1/2, 0), some (27718/100)⟩
  | 'k' => some ⟨"D (Cyan)", (0, 1, 1), some (29366/100)⟩
  | 'l' => some ⟨"D#/Eb (Blue)", (0, 0, 1), none⟩
  | 'm' => some ⟨"E/Fb (Indigo)", (29/100, 0, 51/100), none⟩
  | 'n' => some ⟨"F (Violet)", (1/2, 0, 1), none⟩
  | _ => none

/-- The letters that have an entry in NOTES. -/
def registeredLetters : List Char := ['o', 'p', 'q', 'r', 's', 't', 'i', 'j', 'k', 'l', 'm', 'n']

/-- Python float modulo by 1.0 (result in [0,1)), on exact rationals. -/
def pymod1 (q : ℚ) : ℚ := q - (Rat.floor q : ℚ)

/-- Python max on two rationals (an if, so that it reduces in the kernel). -/
def pymax (a b : ℚ) : ℚ := if a ≤ b then b else a

/-- Python min on two rationals. -/
def pymin (a b : ℚ) : ℚ := if b ≤ a then b else a

/-- Python colorsys.rgb_to_hls, translated to exact rationals.  Returns (h, l, s). -/
def rgb_to_hls (r g b : ℚ) : ℚ × ℚ × ℚ :=
  let maxc := pymax r (pymax g b)
  let minc := pymin r (pymin g b)
  let sumc := maxc + minc
  let rangec := maxc - minc
  let l := sumc / 2
  if minc = maxc then (0, l, 0)
  else
    let s := if l ≤ 1/2 then rangec / sumc else rangec / (2 - sumc)
    let rc := (maxc - r) / rangec
    let gc := (maxc - g) / rangec
    let bc := (maxc - b) / rangec
    let h := if r = maxc then bc - gc else if g = maxc then 2 + rc - bc else 4 + gc - rc
    (pymod1 (h / 6), l, s)

/-- Helper _v of Python colorsys. -/
def hlsV (m1 m2 hue : ℚ) : ℚ :=
  let hue := pymod1 hue
  if hue < 1/6 then m1 + (m2 - m1) * hue * 6
  else if hue < 1/2 then m2
  else if hue < 2/3 then m1 + (m2 - m1) * (2/3 - hue) * 6
  else m1

/-- Python colorsys.hls_to_rgb, translated to exact rationals. -/
def hls_to_rgb (h l s : ℚ) : ℚ × ℚ × ℚ :=
  if s = 0 then (l, l, l)
  else
    let m2 := if l ≤ 1/2 then l * (1 + s) else l + s - l * s
    let m1 := 2 * l - m2
    (hlsV m1 m2 (h + 1/3), hlsV m1 m2 h, hlsV m1 m2 (h - 1/3))

/-- max(0.0, min(1.0, x)), the channel clamp used throughout get_note_color. -/
def clamp01 (x : ℚ) : ℚ := pymax 0 (pymin 1 x)

/-- The error raised by get_note_color for a letter outside NOTES
(the source raises ValueError for an unknown note letter). -/
inductive ColorError
  | unknownNoteLetter
deriving DecidableEq

def MIN_OCTAVE : Int := 0
def MAX_OCTAVE : Int := 8
def MIDDLE_OCTAVE : Int := 4

instance {ε α : Type} [DecidableEq ε] [DecidableEq α] : DecidableEq (Except ε α) := fun a b =>
  match a, b with
  | .ok x, .ok y => decidable_of_iff (x = y) (by simp)
  | .error x, .error y => decidable_of_iff (x = y) (by simp)
  | .ok _, .error _ => isFalse (by simp)
  | .error _, .ok _ => isFalse (by simp)

/-- get_note_color of src/main.py: color for a note letter and octave.
Tuples are destructured by match, mirroring the Python tuple unpacking. -/
def get_note_color (note_letter : Char) (octave : Int) :
    Except ColorError (ℚ × ℚ × ℚ) :=
  match NOTES note_letter with
  | none => .error .unknownNoteLetter
  | some nd =>
    if octave < MIN_OCTAVE then .ok (0, 0, 0)
    else if octave > MAX_OCTAVE then .ok (1, 1, 1)
    else
      match nd.base_rgb with
      | (r_orig, g_orig, b_orig) =>
        match rgb_to_hls r_orig g_orig b_orig with
        | (h, _, _) =>
          match hls_to_rgb h (1/2) 1 with
          | (r_norm, g_norm, b_norm) =>
            if octave = MIDDLE_OCTAVE then
              .ok (clamp01 r_norm, clamp01 g_norm, clamp01 b_norm)
            else if octave = MIN_OCTAVE then .ok (0, 0, 0)
            else if octave = MAX_OCTAVE then .ok (1, 1, 1)
            else
              match rgb_to_hls r_norm g_norm b_norm with
              | (h_base, l_base, s_base) =>
                let target_l :=
                  clamp01 (l_base + ((octave - MIDDLE_OCTAVE : Int) : ℚ) * (1/10))
                match hls_to_rgb h_base target_l s_base with
                | (r_calc, g_calc, b_calc) =>
                  .ok (clamp01 r_calc, clamp01 g_calc, clamp01 b_calc)

/-- The step-5 formula of the spec for in-range octaves, stated from the words
of the spec for comparison with get_note_color: take the hue of the base color,
lightness clamp(0.5 + (octave - 4) * 0.1), saturation 1.0, convert back to RGB
and clamp each channel. -/
def specOctaveColor (c : Char) (octave : Int) : Option (ℚ × ℚ × ℚ) :=
  (NOTES c).map fun nd =>
    match rgb_to_hls nd.base_rgb.1 nd.base_rgb.2.1 nd.base_rgb.2.2 with
    | (h, _, _) =>
      match hls_to_rgb h (clamp01 (1/2 + ((octave - 4 : Int) : ℚ) * (1/10))) 1 with
      | (r, g, b) => (clamp01 r, clamp01 g, clamp01 b)

/-! ## Trainer session (NoteColorsApp) -/

abbrev NoteId := String

/-- CORRECT_IDS_FOR_PROGRESSION: the progression threshold of NoteColorsApp. -/
def CORRECT_IDS_FOR_PROGRESSION : Nat := 3

/-- The mutable session state of NoteColorsApp: the fixed note pool, the active
(unlocked) notes, the per-note stats dict (an association list of
times_identified_correctly_sound counts), and the pending challenge target. -/
structure SessionState where
  initial_note_pool : List NoteId
  active_notes : List NoteId
  note_stats : List (NoteId × Nat)
  current_target_note_id : Option NoteId
deriving DecidableEq

/-- Dict lookup on the stats association list. -/
def statsLookup (st : List (NoteId × Nat)) (k : NoteId) : Option Nat :=
  match st with
  | [] => none
  | x :: rest => if x.1 = k then some x.2 else statsLookup rest k

/-- The `if k not in stats: stats[k] = zero entry` pattern of the source. -/
def statsEnsure (st : List (NoteId × Nat)) (k : NoteId) : List (NoteId × Nat) :=
  match statsLookup st k with
  | some _ => st
  | none => st ++ [(k, 0)]

/-- Increment the count stored at key k (`stats[k][...] += 1`). -/
def statsIncr (st : List (NoteId × Nat)) (k : NoteId) : List (NoteId × Nat) :=
  st.map fun p => if p.1 = k then (p.1, p.2 + 1) else p

/-- The literal initial_note_pool of the source. -/
def sourcePool : List NoteId := ["t3", "i4", "j4", "k4", "s3"]

/-- NoteColorsApp constructor: the pool is fixed, one pool element (the random
choice, passed here as an index) is active with a zero stats entry, and no
target is pending.  The index type rules out the empty pool the constructor
rejects. -/
def initSession (pool : List NoteId) (choice : Fin pool.length) : SessionState :=
  ⟨pool, [pool.get choice], [(pool.get choice, 0)], none⟩

/-- Value of a nonempty all-digit character list, as Python int() parses it. -/
def parseDigits (cs : List Char) : Option Nat :=
  if cs = [] then none
  else if cs.all (·.isDigit) then
    some (cs.foldl (fun a c => a * 10 + (c.toNat - 48)) 0)
  else none

/-- Python int(s) on a plain decimal string: optional sign, then digits. -/
def parsePyInt (str : String) : Option Int :=
  match str.data with
  | '-' :: rest => (parseDigits rest).map fun n => -(n : Int)
  | '+' :: rest => (parseDigits rest).map fun n => (n : Int)
  | cs => (parseDigits cs).map fun n => (n : Int)

/-- note_letter = id[0]; octave = int(id[1:]) — the parse inside
play_challenge_note_action, with IndexError/ValueError as none. -/
def parseNoteId (nid : NoteId) : Option (Char × Int) :=
  match nid.data with
  | [] => none
  | c :: rest => (parsePyInt (String.mk rest)).map fun o => (c, o)

/-- The guard of _play_note_sound: a tone is dispatched only when the letter is
registered and has a defined base frequency; otherwise the call only prints
and returns. -/
def notePlayable (letter : Char) : Bool :=
  match NOTES letter with
  | none => false
  | some nd => nd.frequency.isSome

/-- play_challenge_note_action (issueChallenge): pick
active_notes[choice mod length] as the random challenge (no-op when
active_notes is empty), set it as current target, ensure its stats entry, and
dispatch the tone when the letter is playable; a target id that fails to
parse resets the target to none.  Returns the new state and whether a tone
was dispatched. -/
def play_challenge_note_action (s : SessionState) (choice : Nat) :
    SessionState × Bool :=
  if s.active_notes = [] then (s, false)
  else
    match parseNoteId (s.active_notes.getD (choice % s.active_notes.length) "") with
    | none => ({ s with current_target_note_id := none }, false)
    | some (letter, _) =>
      ({ s with current_target_note_id :=
                  some (s.active_notes.getD (choice % s.active_notes.length) ""),
                note_stats := statsEnsure s.note_stats
                  (s.active_notes.getD (choice % s.active_notes.length) "") },
       notePlayable letter)

/-- attempt_to_add_new_note (attemptUnlock): append the first pool note not
yet active and ensure a stats entry for it; no-op when every pool note is
active.  Returns the new state and the added note, if any. -/
def attempt_to_add_new_note (s : SessionState) : SessionState × Option NoteId :=
  match s.initial_note_pool.filter (fun n => decide (n ∉ s.active_notes)) with
  | [] => (s, none)
  | newNote :: _ =>
    ({ s with active_notes := s.active_notes ++ [newNote],
              note_stats := statsEnsure s.note_stats newNote },
     some newNote)

/-- Outcome of handle_color_patch_click. -/
inductive GuessOutcome
  | noActiveChallenge
  | incorrect
  | correct (unlocked : Option NoteId)
deriving DecidableEq

/-- handle_color_patch_click (evaluateGuess): no mutation without a pending
target; on a correct guess increment the count of the note, attempt progression
exactly when the new count equals CORRECT_IDS_FOR_PROGRESSION, and clear the
target; on a wrong guess change nothing. -/
def handle_color_patch_click (s : SessionState) (clicked : NoteId) :
    SessionState × GuessOutcome :=
  match s.current_target_note_id with
  | none => (s, .noActiveChallenge)
  | some target =>
    if clicked = target then
      let st2 := statsIncr (statsEnsure s.note_stats target) target
      let s1 : SessionState := { s with note_stats := st2 }
      if statsLookup st2 target = some CORRECT_IDS_FOR_PROGRESSION then
        let r := attempt_to_add_new_note s1
        ({ r.1 with current_target_note_id := none }, .correct r.2)
      else
        ({ s1 with current_target_note_id := none }, .correct none)
    else (s, .incorrect)

/-- The session invariant of the spec: active notes are distinct, drawn from
the pool, and each has a stats entry. -/
def SessionInv (s : SessionState) : Prop :=
  s.active_notes.Nodup ∧
  (∀ n ∈ s.active_notes, n ∈ s.initial_note_pool) ∧
  (∀ n ∈ s.active_notes, (statsLookup s.note_stats n).isSome = true)

instance (s : SessionState) : Decidable (SessionInv s) := by
  unfold SessionInv
  infer_instance

/-! ## Lemmas about the stats association list -/

theorem statsLookup_append (st l2 : List (NoteId × Nat)) (k : NoteId) :
    statsLookup (st ++ l2) k
      = match statsLookup st k with
        | some v => some v
        | none => statsLookup l2 k := by
  induction st with
  | nil => simp [statsLookup]
  | cons x rest ih =>
    by_cases h : x.1 = k <;> simp [statsLookup, h, ih]

theorem statsLookup_incr (st : List (NoteId × Nat)) (k : NoteId) :
    statsLookup (statsIncr st k) k = (statsLookup st k).map (· + 1) := by
  induction st with
  | nil => simp [statsLookup, statsIncr]
  | cons x rest ih =>
    by_cases h : x.1 = k
    · simp [statsLookup, statsIncr, h]
    · simp only [statsIncr, List.map_cons, if_neg h, statsLookup]
      simpa [statsIncr] using ih

theorem statsLookup_incr_ne (st : List (NoteId × Nat)) (k n : NoteId) (h : n ≠ k) :
    statsLookup (statsIncr st k) n = statsLookup st n := by
  induction st with
  | nil => simp [statsLookup, statsIncr]
  | cons x rest ih =>
    by_cases hx : x.1 = k <;> by_cases hn : x.1 = n <;>
      simp_all [statsLookup, statsIncr]

theorem statsLookup_ensure_self (st : List (NoteId × Nat)) (k : NoteId) :
    statsLookup (statsEnsure st k) k = some ((statsLookup st k).getD 0) := by
  unfold statsEnsure
  cases h : statsLookup st k with
  | some v => simp [h]
  | none => simp [statsLookup_append, h, statsLookup]

theorem statsLookup_ensure_of_isSome (st : List (NoteId × Nat)) (n k : NoteId)
    (h : (statsLookup st k).isSome = true) :
    statsLookup (statsEnsure st n) k = statsLookup st k := by
  unfold statsEnsure
  cases hn : statsLookup st n with
  | some v => rfl
  | none =>
    rw [statsLookup_append]
    cases hk : statsLookup st k with
    | some v => rfl
    | none => simp [hk] at h

theorem statsEnsure_isSome (st : List (NoteId × Nat)) (n k : NoteId)
    (h : (statsLookup st k).isSome = true) :
    (statsLookup (statsEnsure st n) k).isSome = true := by
  rw [statsLookup_ensure_of_isSome st n k h]
  exact h

theorem statsIncr_isSome (st : List (NoteId × Nat)) (n k : NoteId)
    (h : (statsLookup st k).isSome = true) :
    (statsLookup (statsIncr st n) k).isSome = true := by
  by_cases hk : k = n
  · subst hk
    rw [statsLookup_incr]
    cases hv : statsLookup st k with
    | some v => simp
    | none => simp [hv] at h
  · rw [statsLookup_incr_ne st n k hk]
    exact h

theorem statsLookup_incr_ensure (st : List (NoteId × Nat)) (k : NoteId) :
    statsLookup (statsIncr (statsEnsure st k) k) k
      = some ((statsLookup st k).getD 0 + 1) := by
  rw [statsLookup_incr, statsLookup_ensure_self]
  rfl

/-! ## Lemmas about the session operations -/

theorem handle_correct_eq (s : SessionState) (t : NoteId)
    (hT : s.current_target_note_id = some t) :
    handle_color_patch_click s t
      = (if statsLookup (statsIncr (statsEnsure s.note_stats t) t) t
            = some CORRECT_IDS_FOR_PROGRESSION then
          ({ (attempt_to_add_new_note
                { s with note_stats := statsIncr (statsEnsure s.note_stats t) t }).1
              with current_target_note_id := none },
           GuessOutcome.correct (attempt_to_add_new_note
                { s with note_stats := statsIncr (statsEnsure s.note_stats t) t }).2)
        else
          ({ s with note_stats := statsIncr (statsEnsure s.note_stats t) t,
                    current_target_note_id := none },
           GuessOutcome.correct none)) := by
  simp [handle_color_patch_click, hT]

theorem handle_incorrect_eq (s : SessionState) (t g : NoteId)
    (hT : s.current_target_note_id = some t) (hne : g ≠ t) :
    handle_color_patch_click s g = (s, GuessOutcome.incorrect) := by
  simp [handle_color_patch_click, hT, hne]

theorem attempt_preserves_lookup (s : SessionState) (t : NoteId)
    (h : (statsLookup s.note_stats t).isSome = true) :
    statsLookup (attempt_to_add_new_note s).1.note_stats t
      = statsLookup s.note_stats t := by
  unfold attempt_to_add_new_note
  cases hf : s.initial_note_pool.filter (fun n => decide (n ∉ s.active_notes)) with
  | nil => rfl
  | cons newNote rest => exact statsLookup_ensure_of_isSome s.note_stats newNote t h

/-! ## Per-letter HLS evaluation facts and symbolic color-mapper lemmas -/

theorem hlsBase_o : rgb_to_hls (1) (2/5) (7/10) = ((11/12 : ℚ), (7/10 : ℚ), (1 : ℚ)) := by
  decide

theorem hlsNorm_o : hls_to_rgb (11/12) (1/2) 1 = ((1 : ℚ), (0 : ℚ), (1/2 : ℚ)) := by
  decide

theorem hlsBack_o : rgb_to_hls (1) (0) (1/2) = ((11/12 : ℚ), (1/2 : ℚ), (1 : ℚ)) := by
  decide

theorem hlsClamp_o :
    (clamp01 (1), clamp01 (0), clamp01 (1/2)) = ((1 : ℚ), (0 : ℚ), (1/2 : ℚ)) := by
  decide

theorem hlsBase_p : rgb_to_hls (1) (0) (0) = ((0 : ℚ), (1/2 : ℚ), (1 : ℚ)) := by
  decide

theorem hlsNorm_p : hls_to_rgb (0) (1/2) 1 = ((1 : ℚ), (0 : ℚ), (0 : ℚ)) := by
  decide

theorem hlsBack_p : rgb_to_hls (1) (0) (0) = ((0 : ℚ), (1/2 : ℚ), (1 : ℚ)) := by
  decide

theorem hlsClamp_p :
    (clamp01 (1), clamp01 (0), clamp01 (0)) = ((1 : ℚ), (0 : ℚ), (0 : ℚ)) := by
  decide

theorem hlsBase_q : rgb_to_hls (9/10) (1/4) (21/100) = ((2/207 : ℚ), (111/200 : ℚ), (69/89 : ℚ)) := by
  decide

theorem hlsNorm_q : hls_to_rgb (2/207) (1/2) 1 = ((1 : ℚ), (4/69 : ℚ), (0 : ℚ)) := by
  decide

theorem hlsBack_q : rgb_to_hls (1) (4/69) (0) = ((2/207 : ℚ), (1/2 : ℚ), (1 : ℚ)) := by
  decide

theorem hlsClamp_q :
    (clamp01 (1), clamp01 (4/69), clamp01 (0)) = ((1 : ℚ), (4/69 : ℚ), (0 : ℚ)) := by
  decide

theorem hlsBase_r : rgb_to_hls (1) (13/20) (0) = ((13/120 : ℚ), (1/2 : ℚ), (1 : ℚ)) := by
  decide

theorem hlsNorm_r : hls_to_rgb (13/120) (1/2) 1 = ((1 : ℚ), (13/20 : ℚ), (0 : ℚ)) := by
  decide

theorem hlsBack_r : rgb_to_hls (1) (13/20) (0) = ((13/120 : ℚ), (1/2 : ℚ), (1 : ℚ)) := by
  decide

theorem hlsClamp_r :
    (clamp01 (1), clamp01 (13/20), clamp01 (0)) = ((1 : ℚ), (13/20 : ℚ), (0 : ℚ)) := by
  decide

theorem hlsBase_s : rgb_to_hls (171/200) (647/1000) (1/8) = ((87/730 : ℚ), (49/100 : ℚ), (73/98 : ℚ)) := by
  decide

theorem hlsNorm_s : hls_to_rgb (87/730) (1/2) 1 = ((1 : ℚ), (261/365 : ℚ), (0 : ℚ)) := by
  decide

theorem hlsBack_s : rgb_to_hls (1) (261/365) (0) = ((87/730 : ℚ), (1/2 : ℚ), (1 : ℚ)) := by
  decide

theorem hlsClamp_s :
    (clamp01 (1), clamp01 (261/365), clamp01 (0)) = ((1 : ℚ), (261/365 : ℚ), (0 : ℚ)) := by
  decide

theorem hlsBase_t : rgb_to_hls (1) (1) (0) = ((1/6 : ℚ), (1/2 : ℚ), (1 : ℚ)) := by
  decide

theorem hlsNorm_t : hls_to_rgb (1/6) (1/2) 1 = ((1 : ℚ), (1 : ℚ), (0 : ℚ)) := by
  decide

theorem hlsBack_t : rgb_to_hls (1) (1) (0) = ((1/6 : ℚ), (1/2 : ℚ), (1 : ℚ)) := by
  decide

theorem hlsClamp_t :
    (clamp01 (1), clamp01 (1), clamp01 (0)) = ((1 : ℚ), (1 : ℚ), (0 : ℚ)) := by
  decide

theorem hlsBase_i : rgb_to_hls (1/2) (1) (0) = ((1/4 : ℚ), (1/2 : ℚ), (1 : ℚ)) := by
  decide

theorem hlsNorm_i : hls_to_rgb (1/4) (1/2) 1 = ((1/2 : ℚ), (1 : ℚ), (0 : ℚ)) := by
  decide

theorem hlsBack_i : rgb_to_hls (1/2) (1) (0) = ((1/4 : ℚ), (1/2 : ℚ), (1 : ℚ)) := by
  decide

theorem hlsClamp_i :
    (clamp01 (1/2), clamp01 (1), clamp01 (0)) = ((1/2 : ℚ), (1 : ℚ), (0 : ℚ)) := by
  decide

theorem hlsBase_j : rgb_to_hls (0) (1/2) (0) = ((1/3 : ℚ), (1/4 : ℚ), (1 : ℚ)) := by
  decide

theorem hlsNorm_j : hls_to_rgb (1/3) (1/2) 1 = ((0 : ℚ), (1 : ℚ), (0 : ℚ)) := by
  decide

theorem hlsBack_j : rgb_to_hls (0) (1) (0) = ((1/3 : ℚ), (1/2 : ℚ), (1 : ℚ)) := by
  decide

theorem hlsClamp_j :
    (clamp01 (0), clamp01 (1), clamp01 (0)) = ((0 : ℚ), (1 : ℚ), (0 : ℚ)) := by
  decide

theorem hlsBase_k : rgb_to_hls (0) (1) (1) = ((1/2 : ℚ), (1/2 : ℚ), (1 : ℚ)) := by
  decide

theorem hlsNorm_k : hls_to_rgb (1/2) (1/2) 1 = ((0 : ℚ), (1 : ℚ), (1 : ℚ)) := by
  decide

theorem hlsBack_k : rgb_to_hls (0) (1) (1) = ((1/2 : ℚ), (1/2 : ℚ), (1 : ℚ)) := by
  decide

theorem hlsClamp_k :
    (clamp01 (0), clamp01 (1), clamp01 (1)) = ((0 : ℚ), (1 : ℚ), (1 : ℚ)) := by
  decide

theorem hlsBase_l : rgb_to_hls (0) (0) (1) = ((2/3 : ℚ), (1/2 : ℚ), (1 : ℚ)) := by
  decide

theorem hlsNorm_l : hls_to_rgb (2/3) (1/2) 1 = ((0 : ℚ), (0 : ℚ), (1 : ℚ)) := by
  decide

theorem hlsBack_l : rgb_to_hls (0) (0) (1) = ((2/3 : ℚ), (1/2 : ℚ), (1 : ℚ)) := by
  decide

theorem hlsClamp_l :
    (clamp01 (0), clamp01 (0), clamp01 (1)) = ((0 : ℚ), (0 : ℚ), (1 : ℚ)) := by
  decide

theorem hlsBase_m : rgb_to_hls (29/100) (0) (51/100) = ((233/306 : ℚ), (51/200 : ℚ), (1 : ℚ)) := by
  decide

theorem hlsNorm_m : hls_to_rgb (233/306) (1/2) 1 = ((29/51 : ℚ), (0 : ℚ), (1 : ℚ)) := by
  decide

theorem hlsBack_m : rgb_to_hls (29/51) (0) (1) = ((233/306 : ℚ), (1/2 : ℚ), (1 : ℚ)) := by
  decide

theorem hlsClamp_m :
    (clamp01 (29/51), clamp01 (0), clamp01 (1)) = ((29/51 : ℚ), (0 : ℚ), (1 : ℚ)) := by
  decide

theorem hlsBase_n : rgb_to_hls (1/2) (0) (1) = ((3/4 : ℚ), (1/2 : ℚ), (1 : ℚ)) := by
  decide

theorem hlsNorm_n : hls_to_rgb (3/4) (1/2) 1 = ((1/2 : ℚ), (0 : ℚ), (1 : ℚ)) := by
  decide

theorem hlsBack_n : rgb_to_hls (1/2) (0) (1) = ((3/4 : ℚ), (1/2 : ℚ), (1 : ℚ)) := by
  decide

theorem hlsClamp_n :
    (clamp01 (1/2), clamp01 (0), clamp01 (1)) = ((1/2 : ℚ), (0 : ℚ), (1 : ℚ)) := by
  decide

theorem get_note_color_mid_range (c : Char) (nm : String) (fr : Option ℚ)
    (r0 g0 b0 h l0 s0 rn gn bn : ℚ) (o : Int)
    (hc : NOTES c = some ⟨nm, (r0, g0, b0), fr⟩)
    (hhls : rgb_to_hls r0 g0 b0 = (h, l0, s0))
    (hnorm : hls_to_rgb h (1/2) 1 = (rn, gn, bn))
    (hback : rgb_to_hls rn gn bn = (h, 1/2, 1))
    (hlo : 1 ≤ o) (hhi : o ≤ 7) (hmid : o ≠ 4) :
    (get_note_color c o).toOption = specOctaveColor c o := by
  have h0 : ¬ o < MIN_OCTAVE := by unfold MIN_OCTAVE; omega
  have h8 : ¬ o > MAX_OCTAVE := by unfold MAX_OCTAVE; omega
  have h4 : ¬ o = MIDDLE_OCTAVE := by unfold MIDDLE_OCTAVE; omega
  have hz : ¬ o = MIN_OCTAVE := by unfold MIN_OCTAVE; omega
  have he : ¬ o = MAX_OCTAVE := by unfold MAX_OCTAVE; omega
  unfold get_note_color specOctaveColor
  rw [hc]
  simp only [Option.map_some', if_neg h0, if_neg h8, if_neg h4, if_neg hz, if_neg he,
    hhls, hnorm, hback]
  unfold MIDDLE_OCTAVE
  rcases hfin : hls_to_rgb h (clamp01 (1/2 + ((o - 4 : Int) : ℚ) * (1/10))) 1 with ⟨rc, gc, bc⟩
  simp [hfin, Except.toOption]

theorem get_note_color_boundary (c : Char) (nm : String) (fr : Option ℚ)
    (r0 g0 b0 : ℚ)
    (hc : NOTES c = some ⟨nm, (r0, g0, b0), fr⟩) :
    get_note_color c 0 = .ok (0, 0, 0) ∧ get_note_color c 8 = .ok (1, 1, 1) := by
  unfold get_note_color
  rw [hc]
  constructor <;> simp [MIN_OCTAVE, MAX_OCTAVE, MIDDLE_OCTAVE]

theorem get_note_color_anchor (c : Char) (nm : String) (fr : Option ℚ)
    (r0 g0 b0 h l0 s0 rn gn bn : ℚ)
    (hc : NOTES c = some ⟨nm, (r0, g0, b0), fr⟩)
    (hhls : rgb_to_hls r0 g0 b0 = (h, l0, s0))
    (hnorm : hls_to_rgb h (1/2) 1 = (rn, gn, bn))
    (hclamp : (clamp01 rn, clamp01 gn, clamp01 bn) = (rn, gn, bn))
    (hback : rgb_to_hls rn gn bn = (h, 1/2, 1)) :
    (get_note_color c 4).toOption.map
        (fun rgb => match rgb_to_hls rgb.1 rgb.2.1 rgb.2.2 with
                    | (_, l, s) => (l, s))
      = some (1/2, 1) := by
  have e1 : clamp01 rn = rn := by
    have e := congrArg Prod.fst hclamp
    simpa using e
  have e2 : clamp01 gn = gn := by
    have e := congrArg (fun p => p.2.1) hclamp
    simpa using e
  have e3 : clamp01 bn = bn := by
    have e := congrArg (fun p => p.2.2) hclamp
    simpa using e
  unfold get_note_color
  rw [hc]
  simp only [MIN_OCTAVE, MAX_OCTAVE, MIDDLE_OCTAVE]
  norm_num [hhls, hnorm, Except.toOption]
  rw [e1, e2, e3, hback]

/-! ## Claim theorems: color mapping -/

/-- Claim C4 as stated is false at the in-range octave 0 (and symmetrically 8):
get_note_color returns pure black there, while the claimed
hue/clamped-lightness/full-saturation formula yields the dark red (1/5, 0, 0). -/
theorem C4_lightness_formula_counterexample :
    'p' ∈ registeredLetters ∧ (0 : Int) ≤ 0 ∧ (0 : Int) ≤ 8 ∧ (0 : Int) ≠ 4 ∧
      get_note_color 'p' 0 = .ok (0, 0, 0) ∧
      specOctaveColor 'p' 0 = some (1/5, 0, 0) ∧
      (get_note_color 'p' 0).toOption ≠ specOctaveColor 'p' 0 := by
  refine ⟨by decide, by decide, by decide, by decide, by decide, by decide, by decide⟩

/-- Claim C4 (amended): for every registered letter and every octave strictly
between 0 and 8 other than the middle octave 4, get_note_color equals the
conversion back to RGB of (hue of the base color of the letter, lightness
clamp(0.5 + (octave - 4) * 0.1, 0, 1), saturation 1.0), with each RGB channel
clamped to [0, 1].  (At the in-range octaves 0 and 8 the code returns pure
black and pure white instead, so the claim fails at those two octaves.) -/
theorem C4_lightness_formula (c : Char) (hc : c ∈ registeredLetters)
    (o : Int) (hlo : 1 ≤ o) (hhi : o ≤ 7) (hmid : o ≠ 4) :
    (get_note_color c o).toOption = specOctaveColor c o := by
  fin_cases hc
  · exact get_note_color_mid_range _ _ _ _ _ _ _ _ _ _ _ _ o rfl hlsBase_o hlsNorm_o hlsBack_o hlo hhi hmid
  · exact get_note_color_mid_range _ _ _ _ _ _ _ _ _ _ _ _ o rfl hlsBase_p hlsNorm_p hlsBack_p hlo hhi hmid
  · exact get_note_color_mid_range _ _ _ _ _ _ _ _ _ _ _ _ o rfl hlsBase_q hlsNorm_q hlsBack_q hlo hhi hmid
  · exact get_note_color_mid_range _ _ _ _ _ _ _ _ _ _ _ _ o rfl hlsBase_r hlsNorm_r hlsBack_r hlo hhi hmid
  · exact get_note_color_mid_range _ _ _ _ _ _ _ _ _ _ _ _ o rfl hlsBase_s hlsNorm_s hlsBack_s hlo hhi hmid
  · exact get_note_color_mid_range _ _ _ _ _ _ _ _ _ _ _ _ o rfl hlsBase_t hlsNorm_t hlsBack_t hlo hhi hmid
  · exact get_note_color_mid_range _ _ _ _ _ _ _ _ _ _ _ _ o rfl hlsBase_i hlsNorm_i hlsBack_i hlo hhi hmid
  · exact get_note_color_mid_range _ _ _ _ _ _ _ _ _ _ _ _ o rfl hlsBase_j hlsNorm_j hlsBack_j hlo hhi hmid
  · exact get_note_color_mid_range _ _ _ _ _ _ _ _ _ _ _ _ o rfl hlsBase_k hlsNorm_k hlsBack_k hlo hhi hmid
  · exact get_note_color_mid_range _ _ _ _ _ _ _ _ _ _ _ _ o rfl hlsBase_l hlsNorm_l hlsBack_l hlo hhi hmid
  · exact get_note_color_mid_range _ _ _ _ _ _ _ _ _ _ _ _ o rfl hlsBase_m hlsNorm_m hlsBack_m hlo hhi hmid
  · exact get_note_color_mid_range _ _ _ _ _ _ _ _ _ _ _ _ o rfl hlsBase_n hlsNorm_n hlsBack_n hlo hhi hmid

theorem C4_lightness_formula_witness :
    'p' ∈ registeredLetters ∧ (1 : Int) ≤ 3 ∧ (3 : Int) ≤ 7 ∧ (3 : Int) ≠ 4 ∧
      (get_note_color 'p' 3).toOption = specOctaveColor 'p' 3 :=
  ⟨by decide, by decide, by decide, by decide,
    C4_lightness_formula 'p' (by decide) 3 (by decide) (by decide) (by decide)⟩

/-- Claim C5: for every registered letter, get_note_color at octave 0 is pure
black and at octave 8 pure white. -/
theorem C5_octave_boundary_colors (c : Char) (hc : c ∈ registeredLetters) :
    get_note_color c 0 = .ok (0, 0, 0) ∧ get_note_color c 8 = .ok (1, 1, 1) := by
  fin_cases hc <;> exact get_note_color_boundary _ _ _ _ _ _ rfl

theorem C5_octave_boundary_colors_witness :
    'p' ∈ registeredLetters ∧ get_note_color 'p' 0 = .ok (0, 0, 0) ∧
      get_note_color 'p' 8 = .ok (1, 1, 1) :=
  ⟨by decide, (C5_octave_boundary_colors 'p' (by decide)).1,
    (C5_octave_boundary_colors 'p' (by decide)).2⟩

/-- Claim C9: for every registered letter, the middle-octave color produced by
get_note_color converts back (via rgb_to_hls) to lightness 1/2 and saturation
1, whatever the lightness and saturation of the authored base color. -/
theorem C9_normalized_anchor (c : Char) (hc : c ∈ registeredLetters) :
    (get_note_color c 4).toOption.map
        (fun rgb => match rgb_to_hls rgb.1 rgb.2.1 rgb.2.2 with
                    | (_, l, s) => (l, s))
      = some (1/2, 1) := by
  fin_cases hc
  · exact get_note_color_anchor _ _ _ _ _ _ _ _ _ _ _ _ rfl hlsBase_o hlsNorm_o hlsClamp_o hlsBack_o
  · exact get_note_color_anchor _ _ _ _ _ _ _ _ _ _ _ _ rfl hlsBase_p hlsNorm_p hlsClamp_p hlsBack_p
  · exact get_note_color_anchor _ _ _ _ _ _ _ _ _ _ _ _ rfl hlsBase_q hlsNorm_q hlsClamp_q hlsBack_q
  · exact get_note_color_anchor _ _ _ _ _ _ _ _ _ _ _ _ rfl hlsBase_r hlsNorm_r hlsClamp_r hlsBack_r
  · exact get_note_color_anchor _ _ _ _ _ _ _ _ _ _ _ _ rfl hlsBase_s hlsNorm_s hlsClamp_s hlsBack_s
  · exact get_note_color_anchor _ _ _ _ _ _ _ _ _ _ _ _ rfl hlsBase_t hlsNorm_t hlsClamp_t hlsBack_t
  · exact get_note_color_anchor _ _ _ _ _ _ _ _ _ _ _ _ rfl hlsBase_i hlsNorm_i hlsClamp_i hlsBack_i
  · exact get_note_color_anchor _ _ _ _ _ _ _ _ _ _ _ _ rfl hlsBase_j hlsNorm_j hlsClamp_j hlsBack_j
  · exact get_note_color_anchor _ _ _ _ _ _ _ _ _ _ _ _ rfl hlsBase_k hlsNorm_k hlsClamp_k hlsBack_k
  · exact get_note_color_anchor _ _ _ _ _ _ _ _ _ _ _ _ rfl hlsBase_l hlsNorm_l hlsClamp_l hlsBack_l
  · exact get_note_color_anchor _ _ _ _ _ _ _ _ _ _ _ _ rfl hlsBase_m hlsNorm_m hlsClamp_m hlsBack_m
  · exact get_note_color_anchor _ _ _ _ _ _ _ _ _ _ _ _ rfl hlsBase_n hlsNorm_n hlsClamp_n hlsBack_n

theorem C9_normalized_anchor_witness :
    's' ∈ registeredLetters ∧
      (get_note_color 's' 4).toOption.map
          (fun rgb => match rgb_to_hls rgb.1 rgb.2.1 rgb.2.2 with
                      | (_, l, s) => (l, s))
        = some (1/2, 1) :=
  ⟨by decide, C9_normalized_anchor 's' (by decide)⟩

/-- Claim C10: for every letter without a NOTES entry, get_note_color fails
with UnknownNoteLetter at every integer octave, including octaves below 0 and
above 8 — the unknown-letter check precedes the octave boundary handling. -/
theorem C10_unknown_letter_precedence (c : Char) (hc : NOTES c = none)
    (octave : Int) :
    get_note_color c octave = .error .unknownNoteLetter := by
  unfold get_note_color
  rw [hc]

theorem C10_unknown_letter_precedence_witness :
    NOTES 'z' = none ∧
      get_note_color 'z' (-3) = .error .unknownNoteLetter ∧
      get_note_color 'z' 99 = .error .unknownNoteLetter :=
  ⟨by decide, C10_unknown_letter_precedence 'z' (by decide) (-3),
    C10_unknown_letter_precedence 'z' (by decide) 99⟩

/-! ## Further lemmas on the correct-guess path -/

theorem handle_correct_count (s : SessionState) (t : NoteId)
    (hT : s.current_target_note_id = some t) :
    statsLookup (handle_color_patch_click s t).1.note_stats t
      = some ((statsLookup s.note_stats t).getD 0 + 1) := by
  have hkey := statsLookup_incr_ensure s.note_stats t
  rw [handle_correct_eq s t hT]
  by_cases hc : statsLookup (statsIncr (statsEnsure s.note_stats t) t) t
      = some CORRECT_IDS_FOR_PROGRESSION
  · rw [if_pos hc]
    have hsome : (statsLookup
        (({ s with note_stats := statsIncr (statsEnsure s.note_stats t) t } :
          SessionState)).note_stats t).isSome = true := by
      show (statsLookup (statsIncr (statsEnsure s.note_stats t) t) t).isSome = true
      rw [hkey]
      rfl
    show statsLookup (attempt_to_add_new_note
        { s with note_stats := statsIncr (statsEnsure s.note_stats t) t }).1.note_stats t = _
    rw [attempt_preserves_lookup _ t hsome]
    exact hkey
  · rw [if_neg hc]
    exact hkey

theorem handle_correct_clears (s : SessionState) (t : NoteId)
    (hT : s.current_target_note_id = some t) :
    (handle_color_patch_click s t).1.current_target_note_id = none := by
  rw [handle_correct_eq s t hT]
  split_ifs <;> rfl

theorem handle_correct_outcome (s : SessionState) (t : NoteId)
    (hT : s.current_target_note_id = some t) :
    ∃ u, (handle_color_patch_click s t).2 = GuessOutcome.correct u := by
  rw [handle_correct_eq s t hT]
  split_ifs <;> exact ⟨_, rfl⟩

/-! ## Claim theorems: trainer session -/

/-- Claim C1 as stated is false on the code: for a state whose only active
note has a pitch class with no base frequency, play_challenge_note_action
still sets currentTarget to that note (it was none before the call), rather
than signalling and leaving the target unset. -/
theorem C1_unplayable_counterexample :
    notePlayable 'o' = false ∧
    (⟨["o4"], ["o4"], [("o4", 0)], none⟩ : SessionState).current_target_note_id = none ∧
    (play_challenge_note_action ⟨["o4"], ["o4"], [("o4", 0)], none⟩ 0).1.current_target_note_id
      = some ("o4") := by
  refine ⟨by decide, rfl, by decide⟩

/-- Claim C1 (amended): when the chosen active note parses and its pitch
class has no defined base frequency, play_challenge_note_action still sets
currentTarget to that note and ensures its stats entry; no error reaches the
caller — only the tone dispatch is skipped (the returned flag is false). -/
theorem C1_unplayable_sets_target (s : SessionState) (choice : Nat)
    (t : NoteId) (c : Char) (oct : Int)
    (hne : ¬ s.active_notes = [])
    (ht : s.active_notes.getD (choice % s.active_notes.length) "" = t)
    (hp : parseNoteId t = some (c, oct))
    (hf : notePlayable c = false) :
    play_challenge_note_action s choice
      = ({ s with current_target_note_id := some t,
                  note_stats := statsEnsure s.note_stats t }, false) := by
  simp only [play_challenge_note_action, if_neg hne, ht, hp, hf]

theorem C1_unplayable_sets_target_witness :
    play_challenge_note_action ⟨["o4"], ["o4"], [("o4", 0)], none⟩ 0
      = (⟨["o4"], ["o4"], [("o4", 0)], some ("o4")⟩, false) := by
  have h := C1_unplayable_sets_target ⟨["o4"], ["o4"], [("o4", 0)], none⟩ 0 "o4" 'o' 4
    (by decide) (by decide) (by decide) (by decide)
  exact h.trans (by decide)

/-- Claim C2: with a pending target t, a correct guess increments the count of t by
one and clears the target, and the unlock attempt runs exactly when the new
count equals CORRECT_IDS_FOR_PROGRESSION (= 3): otherwise the result carries
no unlocked note and the state differs only in stats and target. -/
theorem C2_correct_guess_progression (s : SessionState) (t : NoteId)
    (hT : s.current_target_note_id = some t) :
    statsLookup (handle_color_patch_click s t).1.note_stats t
      = some ((statsLookup s.note_stats t).getD 0 + 1) ∧
    (handle_color_patch_click s t).1.current_target_note_id = none ∧
    handle_color_patch_click s t
      = (if (statsLookup s.note_stats t).getD 0 + 1 = CORRECT_IDS_FOR_PROGRESSION then
          ({ (attempt_to_add_new_note
                { s with note_stats := statsIncr (statsEnsure s.note_stats t) t }).1
              with current_target_note_id := none },
           GuessOutcome.correct (attempt_to_add_new_note
                { s with note_stats := statsIncr (statsEnsure s.note_stats t) t }).2)
        else
          ({ s with note_stats := statsIncr (statsEnsure s.note_stats t) t,
                    current_target_note_id := none },
           GuessOutcome.correct none)) := by
  refine ⟨handle_correct_count s t hT, handle_correct_clears s t hT, ?_⟩
  have hkey := statsLookup_incr_ensure s.note_stats t
  rw [handle_correct_eq s t hT]
  by_cases hc : (statsLookup s.note_stats t).getD 0 + 1 = CORRECT_IDS_FOR_PROGRESSION
  · rw [if_pos (by rw [hkey]; exact congrArg some hc), if_pos hc]
  · rw [if_neg (by rw [hkey]; exact fun hx => hc (Option.some_inj.mp hx)), if_neg hc]

theorem C2_correct_guess_progression_witness :
    statsLookup (handle_color_patch_click
        ⟨sourcePool, ["t3"], [("t3", 2)], some ("t3")⟩ "t3").1.note_stats ("t3") = some 3 ∧
    (handle_color_patch_click
        ⟨sourcePool, ["t3"], [("t3", 2)], some ("t3")⟩ "t3").1.current_target_note_id = none := by
  have h := C2_correct_guess_progression ⟨sourcePool, ["t3"], [("t3", 2)], some ("t3")⟩ "t3" rfl
  exact ⟨h.1.trans (by decide), h.2.1⟩

/-- Claim C3: attempt_to_add_new_note appends the first pool note (in the
original pool order) not yet active, gives it a zero stats entry, and
returns it; when every pool note is already active it changes nothing and
returns none without error. -/
theorem C3_attempt_unlock (s : SessionState) :
    ((∀ n ∈ s.initial_note_pool, n ∈ s.active_notes) →
      attempt_to_add_new_note s = (s, none)) ∧
    (∀ l1 n l2, s.initial_note_pool = l1 ++ n :: l2 →
      (∀ m ∈ l1, m ∈ s.active_notes) →
      n ∉ s.active_notes →
      statsLookup s.note_stats n = none →
      attempt_to_add_new_note s
        = ({ s with active_notes := s.active_notes ++ [n],
                    note_stats := s.note_stats ++ [(n, 0)] }, some n)) := by
  constructor
  · intro hall
    unfold attempt_to_add_new_note
    have hf : s.initial_note_pool.filter (fun x => decide (x ∉ s.active_notes)) = [] := by
      rw [List.filter_eq_nil_iff]
      intro a ha
      simp [hall a ha]
    rw [hf]
  · intro l1 n l2 hpool hl1 hn hstat
    unfold attempt_to_add_new_note
    have hf : s.initial_note_pool.filter (fun x => decide (x ∉ s.active_notes))
        = n :: l2.filter (fun x => decide (x ∉ s.active_notes)) := by
      rw [hpool, List.filter_append]
      have hnil : l1.filter (fun x => decide (x ∉ s.active_notes)) = [] := by
        rw [List.filter_eq_nil_iff]
        intro a ha
        simp [hl1 a ha]
      rw [hnil, List.filter_cons]
      simp [hn]
    rw [hf]
    simp only [statsEnsure, hstat]

theorem C3_attempt_unlock_witness :
    attempt_to_add_new_note ⟨["t3"], ["t3"], [("t3", 3)], none⟩
      = (⟨["t3"], ["t3"], [("t3", 3)], none⟩, none) ∧
    attempt_to_add_new_note ⟨sourcePool, ["i4"], [("i4", 3)], none⟩
      = (⟨sourcePool, ["i4", "t3"], [("i4", 3), ("t3", 0)], none⟩, some ("t3")) := by
  constructor
  · exact (C3_attempt_unlock _).1 (by decide)
  · have h := (C3_attempt_unlock ⟨sourcePool, ["i4"], [("i4", 3)], none⟩).2
      [] "t3" ["i4", "j4", "k4", "s3"] (by decide) (by decide) (by decide) (by decide)
    exact h.trans (by decide)

/-- Claim C7: with no pending target, any guess yields NoActiveChallenge and
the whole session state is returned unchanged. -/
theorem C7_no_active_challenge (s : SessionState) (g : NoteId)
    (h : s.current_target_note_id = none) :
    handle_color_patch_click s g = (s, GuessOutcome.noActiveChallenge) := by
  unfold handle_color_patch_click
  rw [h]

theorem C7_no_active_challenge_witness :
    handle_color_patch_click ⟨sourcePool, ["t3"], [("t3", 0)], none⟩ "i4"
      = (⟨sourcePool, ["t3"], [("t3", 0)], none⟩, GuessOutcome.noActiveChallenge) :=
  C7_no_active_challenge ⟨sourcePool, ["t3"], [("t3", 0)], none⟩ "i4" rfl

/-- Claim C8: with a pending target t, a wrong guess leaves the state (in
particular currentTarget) unchanged and yields the incorrect outcome, so the
subsequent correct guess still succeeds and increments the count of t by exactly
one for the round. -/
theorem C8_incorrect_guess_frame (s : SessionState) (t g : NoteId)
    (hT : s.current_target_note_id = some t) (hne : g ≠ t) :
    handle_color_patch_click s g = (s, GuessOutcome.incorrect) ∧
    (∃ u, (handle_color_patch_click (handle_color_patch_click s g).1 t).2
        = GuessOutcome.correct u) ∧
    statsLookup (handle_color_patch_click
        (handle_color_patch_click s g).1 t).1.note_stats t
      = some ((statsLookup s.note_stats t).getD 0 + 1) := by
  have h1 := handle_incorrect_eq s t g hT hne
  have h2 : (handle_color_patch_click s g).1 = s := by rw [h1]
  refine ⟨h1, ?_, ?_⟩
  · rw [h2]
    exact handle_correct_outcome s t hT
  · rw [h2]
    exact handle_correct_count s t hT

theorem C8_incorrect_guess_frame_witness :
    handle_color_patch_click ⟨sourcePool, ["t3"], [("t3", 0)], some ("t3")⟩ "i4"
      = (⟨sourcePool, ["t3"], [("t3", 0)], some ("t3")⟩, GuessOutcome.incorrect) ∧
    statsLookup (handle_color_patch_click
        (handle_color_patch_click ⟨sourcePool, ["t3"], [("t3", 0)], some ("t3")⟩ "i4").1
        "t3").1.note_stats ("t3") = some 1 := by
  have h := C8_incorrect_guess_frame ⟨sourcePool, ["t3"], [("t3", 0)], some ("t3")⟩
    "t3" "i4" rfl (by decide)
  exact ⟨h.1, h.2.2.trans (by decide)⟩

/-! ## Invariant preservation -/

theorem handle_none_eq (s : SessionState) (g : NoteId)
    (h : s.current_target_note_id = none) :
    handle_color_patch_click s g = (s, GuessOutcome.noActiveChallenge) := by
  unfold handle_color_patch_click
  rw [h]

theorem initSession_inv (pool : List NoteId) (choice : Fin pool.length) :
    SessionInv (initSession pool choice) ∧
    (initSession pool choice).initial_note_pool = pool := by
  refine ⟨⟨List.nodup_singleton _, ?_, ?_⟩, rfl⟩
  · intro n hn
    replace hn : n ∈ [pool.get choice] := hn
    rw [List.mem_singleton] at hn
    subst hn
    show pool.get choice ∈ pool
    exact pool.get_mem _ _
  · intro n hn
    replace hn : n ∈ [pool.get choice] := hn
    rw [List.mem_singleton] at hn
    subst hn
    show (statsLookup [(pool.get choice, 0)] (pool.get choice)).isSome = true
    simp [statsLookup]

theorem attempt_inv (s : SessionState) (hs : SessionInv s) :
    SessionInv (attempt_to_add_new_note s).1 ∧
    (attempt_to_add_new_note s).1.initial_note_pool = s.initial_note_pool ∧
    ∃ ext, (attempt_to_add_new_note s).1.active_notes = s.active_notes ++ ext := by
  obtain ⟨hnd, hsub, hst⟩ := hs
  unfold attempt_to_add_new_note
  cases hf : s.initial_note_pool.filter (fun x => decide (x ∉ s.active_notes)) with
  | nil => exact ⟨⟨hnd, hsub, hst⟩, rfl, [], by simp⟩
  | cons newNote tail =>
    have hmem : newNote ∈ s.initial_note_pool.filter
        (fun x => decide (x ∉ s.active_notes)) := by
      rw [hf]
      exact List.mem_cons_self _ _
    rw [List.mem_filter] at hmem
    obtain ⟨hpool, hdec⟩ := hmem
    have hnot : newNote ∉ s.active_notes := of_decide_eq_true hdec
    refine ⟨⟨?_, ?_, ?_⟩, rfl, [newNote], rfl⟩
    · simp [List.nodup_append, hnd, hnot]
    · intro n hn
      rw [List.mem_append] at hn
      rcases hn with hn | hn
      · exact hsub n hn
      · rw [List.mem_singleton] at hn
        subst hn
        exact hpool
    · intro n hn
      rw [List.mem_append] at hn
      rcases hn with hn | hn
      · exact statsEnsure_isSome _ _ _ (hst n hn)
      · rw [List.mem_singleton] at hn
        subst hn
        rw [statsLookup_ensure_self]
        rfl

theorem play_inv (s : SessionState) (hs : SessionInv s) (choice : Nat) :
    SessionInv (play_challenge_note_action s choice).1 ∧
    (play_challenge_note_action s choice).1.initial_note_pool = s.initial_note_pool ∧
    (play_challenge_note_action s choice).1.active_notes = s.active_notes := by
  obtain ⟨hnd, hsub, hst⟩ := hs
  unfold play_challenge_note_action
  by_cases hne : s.active_notes = []
  · rw [if_pos hne]
    exact ⟨⟨hnd, hsub, hst⟩, rfl, rfl⟩
  · rw [if_neg hne]
    cases hp : parseNoteId (s.active_notes.getD (choice % s.active_notes.length) "") with
    | none => exact ⟨⟨hnd, hsub, hst⟩, rfl, rfl⟩
    | some pr =>
      rcases pr with ⟨c, oct⟩
      exact ⟨⟨hnd, hsub, fun n hn => statsEnsure_isSome _ _ _ (hst n hn)⟩, rfl, rfl⟩

theorem handle_inv (s : SessionState) (hs : SessionInv s) (g : NoteId) :
    SessionInv (handle_color_patch_click s g).1 ∧
    (handle_color_patch_click s g).1.initial_note_pool = s.initial_note_pool ∧
    ∃ ext, (handle_color_patch_click s g).1.active_notes = s.active_notes ++ ext := by
  cases hT : s.current_target_note_id with
  | none =>
    rw [handle_none_eq s g hT]
    exact ⟨hs, rfl, [], by simp⟩
  | some t =>
    by_cases hg : g = t
    · subst hg
      rw [handle_correct_eq s g hT]
      obtain ⟨hnd, hsub, hst⟩ := hs
      have hs1 : SessionInv
          { s with note_stats := statsIncr (statsEnsure s.note_stats g) g } :=
        ⟨hnd, hsub, fun n hn =>
          statsIncr_isSome _ _ _ (statsEnsure_isSome _ _ _ (hst n hn))⟩
      by_cases hc : statsLookup (statsIncr (statsEnsure s.note_stats g) g) g
          = some CORRECT_IDS_FOR_PROGRESSION
      · rw [if_pos hc]
        obtain ⟨hinv, hpool, ext, hact⟩ := attempt_inv _ hs1
        exact ⟨hinv, hpool, ext, hact⟩
      · rw [if_neg hc]
        exact ⟨hs1, rfl, [], by simp⟩
    · rw [handle_incorrect_eq s t g hT hg]
      exact ⟨hs, rfl, [], by simp⟩

/-- Claim C6: construction establishes the session invariant (active notes
distinct, drawn from the pool, each with a stats entry), and every session
operation — issueChallenge, evaluateGuess, attemptUnlock — preserves it,
leaves the pool untouched, and only ever appends to active_notes. -/
theorem C6_invariants (pool : List NoteId) (i : Fin pool.length)
    (s : SessionState) (hs : SessionInv s) (choice : Nat) (g : NoteId) :
    (SessionInv (initSession pool i) ∧
      (initSession pool i).initial_note_pool = pool) ∧
    (SessionInv (play_challenge_note_action s choice).1 ∧
      (play_challenge_note_action s choice).1.initial_note_pool = s.initial_note_pool ∧
      ∃ e1, (play_challenge_note_action s choice).1.active_notes
        = s.active_notes ++ e1) ∧
    (SessionInv (handle_color_patch_click s g).1 ∧
      (handle_color_patch_click s g).1.initial_note_pool = s.initial_note_pool ∧
      ∃ e2, (handle_color_patch_click s g).1.active_notes = s.active_notes ++ e2) ∧
    (SessionInv (attempt_to_add_new_note s).1 ∧
      (attempt_to_add_new_note s).1.initial_note_pool = s.initial_note_pool ∧
      ∃ e3, (attempt_to_add_new_note s).1.active_notes = s.active_notes ++ e3) := by
  refine ⟨initSession_inv pool i, ?_, handle_inv s hs g, attempt_inv s hs⟩
  obtain ⟨h1, h2, h3⟩ := play_inv s hs choice
  exact ⟨h1, h2, [], by simp [h3]⟩

theorem C6_invariants_witness :
    SessionInv (initSession sourcePool ⟨0, by decide⟩) ∧
    SessionInv (play_challenge_note_action
      ⟨sourcePool, ["t3"], [("t3", 0)], none⟩ 0).1 ∧
    SessionInv (handle_color_patch_click
      ⟨sourcePool, ["t3"], [("t3", 0)], none⟩ "t3").1 ∧
    SessionInv (attempt_to_add_new_note
      ⟨sourcePool, ["t3"], [("t3", 0)], none⟩).1 := by
  have h := C6_invariants sourcePool ⟨0, by decide⟩
    ⟨sourcePool, ["t3"], [("t3", 0)], none⟩ (by decide) 0 "t3"
  exact ⟨h.1.1, h.2.1.1, h.2.2.1.1, h.2.2.2.1⟩
